import Mathlib

/-!
# GlibcInterop / FSIOC

A shallow embedding of `Sources/GlibcInterop/FSIOC.c` and `FSIOC.h`: the inode
attribute-flag accessors `fgetFileFlags` / `fsetFileFlags`, the extended-stat
accessors `fstat_compat` / `stat_compat`, and the two exported sentinel constants.

The C functions are thin wrappers around system calls, and the preprocessor picks
one of two bodies for each of them.  The embedding makes both explicit:

* `Build` records which of the three feature macros are defined;
* `Kernel κ` is the interface of the underlying calls (`ioctl`, `statx`, `fstat`,
  `stat`) over an arbitrary kernel state `κ`;
* `Proc κ` is the state a call runs in: the kernel state, `errno`, and the log of
  the requests issued so far.

Pointer arguments are passed by value and returned: `*flags` and `*stx` go in with
their contents before the call and come back with their contents after it.
-/

namespace FSIOC

/-! ## Integer conversions of C -/

/-- Conversion to `__u16`: reduction modulo `2^16`. -/
def cast_u16 (n : Nat) : Nat := n % 2 ^ 16

/-- Conversion to `__u32`: reduction modulo `2^32`. -/
def cast_u32 (n : Nat) : Nat := n % 2 ^ 32

/-- Conversion of a signed 64-bit value to `__u64`: reduction modulo `2^64`. -/
def cast_u64 (x : Int) : Nat := (x % 2 ^ 64).toNat

/-- Conversion of a `long` to `int` (the return type of the accessors): two's
complement wrap to 32 bits. -/
def cast_int (x : Int) : Int := (x + 2 ^ 31) % 2 ^ 32 - 2 ^ 31

/-- Conversion of a `long` to `long long`: two's complement wrap to 64 bits. -/
def cast_longlong (x : Int) : Int := (x + 2 ^ 63) % 2 ^ 64 - 2 ^ 63

/-! ## Constants of the platform headers

None of these is defined under `Sources/`; the values are those of glibc and the
Linux UAPI headers on x86-64. -/

/-- Modelled from the spec: the "current time" sentinel `UTIME_NOW` of `<sys/stat.h>`,
a macro that is not defined in this repository; glibc has `((1l << 30) - 1l)`. -/
def UTIME_NOW : Int := (1 <<< 30 : Nat) - 1

/-- Modelled from the spec: the "omit" sentinel `UTIME_OMIT` of `<sys/stat.h>`,
a macro that is not defined in this repository; glibc has `((1l << 30) - 2l)`. -/
def UTIME_OMIT : Int := (1 <<< 30 : Nat) - 2

/-- The value of `ENOSYS` in `<errno.h>`. -/
def ENOSYS : Int := 38
/-- The value of `EPERM` in `<errno.h>`. -/
def EPERM : Int := 1
/-- The value of `ENOENT` in `<errno.h>`. -/
def ENOENT : Int := 2
/-- The value of `EBADF` in `<errno.h>`. -/
def EBADF : Int := 9
/-- The value of `ENOTTY` in `<errno.h>`. -/
def ENOTTY : Int := 25
/-- The value of `ELOOP` in `<errno.h>`. -/
def ELOOP : Int := 40

/-- The request code `_IOR('f', 1, long)` of `<linux/fs.h>`. -/
def FS_IOC_GETFLAGS : Nat := 0x80086601
/-- The request code `_IOW('f', 2, long)` of `<linux/fs.h>`. -/
def FS_IOC_SETFLAGS : Nat := 0x40086602

/-- The directory descriptor `AT_FDCWD` of `<fcntl.h>`. -/
def AT_FDCWD : Int := -100
/-- The flag `AT_SYMLINK_NOFOLLOW` of `<fcntl.h>`. -/
def AT_SYMLINK_NOFOLLOW : Nat := 0x100
/-- The flag `AT_EMPTY_PATH` of `<fcntl.h>`. -/
def AT_EMPTY_PATH : Nat := 0x1000
/-- The flag `AT_STATX_SYNC_AS_STAT` of `<fcntl.h>`. -/
def AT_STATX_SYNC_AS_STAT : Nat := 0x0000
/-- The mask `STATX_BASIC_STATS` of `<linux/stat.h>`. -/
def STATX_BASIC_STATS : Nat := 0x7ff
/-- The mask `STATX_BTIME` of `<linux/stat.h>`. -/
def STATX_BTIME : Nat := 0x800

/-! ## Records -/

/-- The `struct timespec`: `time_t tv_sec` and `long tv_nsec`, both signed 64-bit. -/
structure Timespec where
  tv_sec : Int
  tv_nsec : Int
deriving DecidableEq, Repr

/-- The fields of the legacy `struct stat` of `<sys/stat.h>` that the accessors read.
On x86-64 Linux `st_nlink` is unsigned 64-bit, `st_uid`, `st_gid` and `st_mode` are
unsigned 32-bit and `st_size` is signed 64-bit. -/
structure Stat where
  st_nlink : Nat
  st_uid : Nat
  st_gid : Nat
  st_mode : Nat
  st_size : Int
  st_atim : Timespec
  st_mtim : Timespec
  st_ctim : Timespec
deriving DecidableEq, Repr

/-- The `struct statx` of `FSIOC.h` (lines 28-38), in declaration order:
`__u32 stx_nlink, stx_uid, stx_gid; __u16 stx_mode; __u64 stx_size` and four
`struct timespec`.  In a build with `__NR_statx` the structure is the one of
`<linux/stat.h>`, which has these fields among others; the accessors do not touch
its fields there. -/
structure Statx where
  stx_nlink : Nat
  stx_uid : Nat
  stx_gid : Nat
  stx_mode : Nat
  stx_size : Nat
  stx_atime : Timespec
  stx_btime : Timespec
  stx_ctime : Timespec
  stx_mtime : Timespec
deriving DecidableEq, Repr

/-- A `struct timespec` whose two fields are in the range of their C type. -/
def Timespec.InRange (t : Timespec) : Prop :=
  -2 ^ 63 ≤ t.tv_sec ∧ t.tv_sec < 2 ^ 63 ∧ -2 ^ 63 ≤ t.tv_nsec ∧ t.tv_nsec < 2 ^ 63

/-- A legacy record whose fields are all in the range of their C type on x86-64 Linux. -/
def Stat.InRange (st : Stat) : Prop :=
  st.st_nlink < 2 ^ 64 ∧ st.st_uid < 2 ^ 32 ∧ st.st_gid < 2 ^ 32 ∧ st.st_mode < 2 ^ 32 ∧
  -2 ^ 63 ≤ st.st_size ∧ st.st_size < 2 ^ 63 ∧
  st.st_atim.InRange ∧ st.st_mtim.InRange ∧ st.st_ctim.InRange

/-- The valid range of the nanosecond field of a timestamp. -/
def Timespec.ValidNsec (t : Timespec) : Prop := 0 ≤ t.tv_nsec ∧ t.tv_nsec < 10 ^ 9

instance (t : Timespec) : Decidable t.ValidNsec := by
  unfold Timespec.ValidNsec
  infer_instance

/-- The sentinel pair that stands for "creation time not available". -/
def omitPair : Timespec := { tv_sec := UTIME_OMIT, tv_nsec := UTIME_OMIT }

/-! ## Build configuration, kernel interface and process state -/

/-- Which of the feature macros tested by `#ifdef` in `FSIOC.c` are defined. -/
structure Build where
  has_FS_IOC_GETFLAGS : Bool
  has_FS_IOC_SETFLAGS : Bool
  has_NR_statx : Bool
deriving DecidableEq, Repr

/-- A request issued to the operating system.  The `arg` of an `ioctl` is the word
its pointer argument refers to at the time of the call. -/
inductive Request where
  | ioctl (fd : Int) (request : Nat) (arg : Nat)
  | statx (dirfd : Int) (path : String) (flags : Nat) (mask : Nat)
  | fstat (fd : Int)
  | stat (path : String)
deriving DecidableEq, Repr

/-- What a call hands back: its return value, the value it stores in `errno`
(`none` when it leaves `errno` alone) and the contents of the user buffer after it. -/
structure Reply (β : Type) where
  ret : Int
  err : Option Int
  buf : β

/-- The underlying calls, over a kernel state `κ`.  `ioctl`
and `statx` receive the contents of the buffer before the call; the buffer of
`fstat` and `stat` is a fresh local `struct stat`, so only its contents after the
call matter. -/
structure Kernel (κ : Type) where
  ioctl : κ → Int → Nat → Nat → κ × Reply Nat
  statx : κ → Int → String → Nat → Nat → Statx → κ × Reply Statx
  fstat : κ → Int → κ × Reply Stat
  stat : κ → String → κ × Reply Stat

/-- The state a call runs in: kernel state, `errno`, and the requests issued so far. -/
structure Proc (κ : Type) where
  kern : κ
  errno : Int
  calls : List Request

/-- The state after a call: new kernel state, `errno` as the call left it, and the
request appended to the log. -/
def Proc.after {κ β : Type} (p : Proc κ) (rq : Request) (s : κ) (r : Reply β) : Proc κ :=
  { kern := s, errno := r.err.getD p.errno, calls := p.calls ++ [rq] }

/-- The library call `ioctl(fd, request, &arg)`. -/
def sys_ioctl {κ : Type} (k : Kernel κ) (p : Proc κ) (fd : Int) (request arg : Nat) :
    Proc κ × Int × Nat :=
  let sr := k.ioctl p.kern fd request arg
  (p.after (.ioctl fd request arg) sr.1 sr.2, sr.2.ret, sr.2.buf)

/-- The library call `syscall(SYS_statx, dirfd, path, flags, mask, stx)`; the result is a `long`. -/
def sys_statx {κ : Type} (k : Kernel κ) (p : Proc κ) (dirfd : Int) (path : String)
    (flags mask : Nat) (stx : Statx) : Proc κ × Int × Statx :=
  let sr := k.statx p.kern dirfd path flags mask stx
  (p.after (.statx dirfd path flags mask) sr.1 sr.2, sr.2.ret, sr.2.buf)

/-- The library call `fstat(fd, &st)`. -/
def sys_fstat {κ : Type} (k : Kernel κ) (p : Proc κ) (fd : Int) : Proc κ × Int × Stat :=
  let sr := k.fstat p.kern fd
  (p.after (.fstat fd) sr.1 sr.2, sr.2.ret, sr.2.buf)

/-- The library call `stat(path, &st)`. -/
def sys_stat {κ : Type} (k : Kernel κ) (p : Proc κ) (path : String) : Proc κ × Int × Stat :=
  let sr := k.stat p.kern path
  (p.after (.stat path) sr.1 sr.2, sr.2.ret, sr.2.buf)

/-! ## The four accessors of `FSIOC.c` -/

/-- The function `int fgetFileFlags(int fd, unsigned int* flags)` (lines 19-28). -/
def fgetFileFlags {κ : Type} (b : Build) (k : Kernel κ) (p : Proc κ) (fd : Int) (flags : Nat) :
    Proc κ × Int × Nat :=
  if b.has_FS_IOC_GETFLAGS then
    sys_ioctl k p fd FS_IOC_GETFLAGS flags
  else
    ({ p with errno := ENOSYS }, -1, flags)

/-- The function `int fsetFileFlags(int fd, unsigned int flags)` (lines 31-40). -/
def fsetFileFlags {κ : Type} (b : Build) (k : Kernel κ) (p : Proc κ) (fd : Int) (flags : Nat) :
    Proc κ × Int :=
  if b.has_FS_IOC_SETFLAGS then
    let r := sys_ioctl k p fd FS_IOC_SETFLAGS flags
    (r.1, r.2.1)
  else
    ({ p with errno := ENOSYS }, -1)

/-- The function `int fstat_compat(int fd, struct statx* stx)` (lines 43-66). -/
def fstat_compat {κ : Type} (b : Build) (k : Kernel κ) (p : Proc κ) (fd : Int) (stx : Statx) :
    Proc κ × Int × Statx :=
  if b.has_NR_statx then
    let r := sys_statx k p fd ""
      (AT_EMPTY_PATH ||| AT_STATX_SYNC_AS_STAT) (STATX_BASIC_STATS ||| STATX_BTIME) stx
    (r.1, cast_int r.2.1, r.2.2)
  else
    let r := sys_fstat k p fd
    let result := r.2.1
    let st := r.2.2
    if result ≠ 0 then (r.1, -1, stx) else
    let stx := { stx with stx_nlink := cast_u32 st.st_nlink }
    let stx := { stx with stx_uid := cast_u32 st.st_uid }
    let stx := { stx with stx_gid := cast_u32 st.st_gid }
    let stx := { stx with stx_mode := cast_u16 st.st_mode }
    let stx := { stx with stx_size := cast_u64 st.st_size }
    let stx := { stx with stx_atime := st.st_atim }
    let stx := { stx with stx_mtime := st.st_mtim }
    let stx := { stx with stx_ctime := st.st_ctim }
    let stx := { stx with stx_btime := { stx.stx_btime with tv_sec := UTIME_OMIT } }
    let stx := { stx with stx_btime := { stx.stx_btime with tv_nsec := UTIME_OMIT } }
    (r.1, 0, stx)

/-- The function `int stat_compat(const char *path, struct statx *stx)` (lines 69-92). -/
def stat_compat {κ : Type} (b : Build) (k : Kernel κ) (p : Proc κ) (path : String)
    (stx : Statx) : Proc κ × Int × Statx :=
  if b.has_NR_statx then
    let r := sys_statx k p AT_FDCWD path
      AT_SYMLINK_NOFOLLOW (STATX_BASIC_STATS ||| STATX_BTIME) stx
    (r.1, cast_int r.2.1, r.2.2)
  else
    let r := sys_stat k p path
    let result := r.2.1
    let st := r.2.2
    if result ≠ 0 then (r.1, -1, stx) else
    let stx := { stx with stx_nlink := cast_u32 st.st_nlink }
    let stx := { stx with stx_uid := cast_u32 st.st_uid }
    let stx := { stx with stx_gid := cast_u32 st.st_gid }
    let stx := { stx with stx_mode := cast_u16 st.st_mode }
    let stx := { stx with stx_size := cast_u64 st.st_size }
    let stx := { stx with stx_atime := st.st_atim }
    let stx := { stx with stx_mtime := st.st_mtim }
    let stx := { stx with stx_ctime := st.st_ctim }
    let stx := { stx with stx_btime := { stx.stx_btime with tv_sec := UTIME_OMIT } }
    let stx := { stx with stx_btime := { stx.stx_btime with tv_nsec := UTIME_OMIT } }
    (r.1, 0, stx)

/-- The exported constant `const long long UTIME_OMIT_INTEROP = UTIME_OMIT;` (line 95). -/
def UTIME_OMIT_INTEROP : Int := cast_longlong UTIME_OMIT

/-- The exported constant `const long long UTIME_NOW_INTEROP = UTIME_NOW;` (line 96). -/
def UTIME_NOW_INTEROP : Int := cast_longlong UTIME_NOW

/-! ## A reference model of the kernel

A small file system: a flat name space from path strings to inode numbers, a table
of open descriptors, and a table of inodes.  Each inode carries what the kernel
reports about it to a legacy request and to an extended request, its attribute flag
word, the target path when it is a symbolic link, and whether the caller may change
its attributes.  The calls follow their manual pages: `stat` follows symbolic links,
`statx` does so unless `AT_SYMLINK_NOFOLLOW` is given and looks at the descriptor
itself when the path is empty and `AT_EMPTY_PATH` is given, `fstat` looks at the
descriptor, the get request reads the flag word and the set request writes it. -/

/-- An inode of the reference model. -/
structure Inode where
  st : Stat
  sx : Statx
  flags : Nat
  link : Option String
  owned : Bool
deriving DecidableEq, Repr

/-- The state of the reference model. -/
structure OS where
  names : List (String × Nat)
  fds : List (Int × Nat)
  inodes : List (Nat × Inode)
deriving DecidableEq, Repr

/-- Replace the first entry for inode number `i`. -/
def setInode : List (Nat × Inode) → Nat → Inode → List (Nat × Inode)
  | [], _, _ => []
  | (j, x) :: t, i, nd => if j = i then (j, nd) :: t else (j, x) :: setInode t i nd

/-- The attribute flag word of inode `i`, if the inode exists. -/
def OS.flagsOf (os : OS) (i : Nat) : Option Nat := (os.inodes.lookup i).map Inode.flags

/-- Follow symbolic links starting from inode `i`; more than 40 links give `ELOOP`. -/
def OS.deref (os : OS) : Nat → Nat → Except Int Nat
  | 0, _ => .error ELOOP
  | fuel + 1, i =>
    match os.inodes.lookup i with
    | none => .error ENOENT
    | some nd =>
      match nd.link with
      | none => .ok i
      | some target =>
        match os.names.lookup target with
        | none => .error ENOENT
        | some j => os.deref fuel j

/-- Path lookup; the final symbolic link is followed only when `follow` is set.
The empty path names nothing. -/
def OS.namei (os : OS) (path : String) (follow : Bool) : Except Int Nat :=
  if path = "" then .error ENOENT else
  match os.names.lookup path with
  | none => .error ENOENT
  | some i => if follow then os.deref 41 i else .ok i

/-- The inode an open descriptor refers to. -/
def OS.fdget (os : OS) (fd : Int) : Except Int Nat :=
  match os.fds.lookup fd with
  | none => .error EBADF
  | some i => .ok i

/-- A failed call: returns `-1`, stores the error code, leaves the buffer alone. -/
def failWith {β : Type} (e : Int) (buf : β) : Reply β := { ret := -1, err := some e, buf := buf }

/-- Report on the subject of a stat request, or fail with the subject's error. -/
def OS.report {β : Type} (os : OS) (subject : Except Int Nat) (pick : Inode → β) (buf : β) :
    Reply β :=
  match subject with
  | .error e => failWith e buf
  | .ok i =>
    match os.inodes.lookup i with
    | none => failWith ENOENT buf
    | some nd => { ret := 0, err := none, buf := pick nd }

/-- The contents of a local `struct stat` that no call has filled in. -/
def Stat.unset : Stat :=
  { st_nlink := 0, st_uid := 0, st_gid := 0, st_mode := 0, st_size := 0,
    st_atim := ⟨0, 0⟩, st_mtim := ⟨0, 0⟩, st_ctim := ⟨0, 0⟩ }

/-- The `ioctl` of the reference model: the two flag requests on an open descriptor. -/
def OS.ioctl (os : OS) (fd : Int) (request arg : Nat) : OS × Reply Nat :=
  match os.fdget fd with
  | .error e => (os, failWith e arg)
  | .ok i =>
    match os.inodes.lookup i with
    | none => (os, failWith EBADF arg)
    | some nd =>
      if request = FS_IOC_GETFLAGS then
        (os, { ret := 0, err := none, buf := nd.flags })
      else if request = FS_IOC_SETFLAGS then
        if nd.owned then
          ({ os with inodes := setInode os.inodes i { nd with flags := arg } },
           { ret := 0, err := none, buf := arg })
        else (os, failWith EPERM arg)
      else (os, failWith ENOTTY arg)

/-- The `statx` of the reference model. -/
def OS.statx (os : OS) (dirfd : Int) (path : String) (flags _mask : Nat) (stx : Statx) :
    OS × Reply Statx :=
  let subject :=
    if path = "" ∧ flags &&& AT_EMPTY_PATH ≠ 0 then os.fdget dirfd
    else os.namei path (flags &&& AT_SYMLINK_NOFOLLOW = 0)
  (os, os.report subject Inode.sx stx)

/-- The `fstat` of the reference model. -/
def OS.fstat (os : OS) (fd : Int) : OS × Reply Stat :=
  (os, os.report (os.fdget fd) Inode.st Stat.unset)

/-- The `stat` of the reference model: the final symbolic link is followed. -/
def OS.stat (os : OS) (path : String) : OS × Reply Stat :=
  (os, os.report (os.namei path true) Inode.st Stat.unset)

/-- The reference model as a kernel. -/
def refKernel : Kernel OS :=
  { ioctl := OS.ioctl, statx := OS.statx, fstat := OS.fstat, stat := OS.stat }

/-- The fallback build: flag request codes present, `__NR_statx` not defined. -/
def fallbackBuild : Build :=
  { has_FS_IOC_GETFLAGS := true, has_FS_IOC_SETFLAGS := true, has_NR_statx := false }

/-- A build with every facility present. -/
def modernBuild : Build :=
  { has_FS_IOC_GETFLAGS := true, has_FS_IOC_SETFLAGS := true, has_NR_statx := true }

/-- A build without the flag request codes. -/
def bareBuild : Build :=
  { has_FS_IOC_GETFLAGS := false, has_FS_IOC_SETFLAGS := false, has_NR_statx := false }

/-! ## A sample file system -/

/-- Report of the regular file `/t`: 5000 bytes, mode `0100644`, one link. -/
def fileStat : Stat :=
  { st_nlink := 1, st_uid := 1000, st_gid := 100, st_mode := 0o100644, st_size := 5000,
    st_atim := ⟨1700000000, 1⟩, st_mtim := ⟨1700000001, 2⟩, st_ctim := ⟨1700000002, 3⟩ }

/-- Extended report of the regular file `/t`. -/
def fileStatx : Statx :=
  { stx_nlink := 1, stx_uid := 1000, stx_gid := 100, stx_mode := 0o100644, stx_size := 5000,
    stx_atime := ⟨1700000000, 1⟩, stx_btime := ⟨1600000000, 7⟩,
    stx_ctime := ⟨1700000002, 3⟩, stx_mtime := ⟨1700000001, 2⟩ }

/-- Report of the symbolic link `/l` itself: 2 bytes (its target is `/t`), mode `0120777`. -/
def linkStat : Stat :=
  { st_nlink := 1, st_uid := 0, st_gid := 0, st_mode := 0o120777, st_size := 2,
    st_atim := ⟨1700000010, 4⟩, st_mtim := ⟨1700000011, 5⟩, st_ctim := ⟨1700000012, 6⟩ }

/-- Extended report of the symbolic link `/l` itself. -/
def linkStatx : Statx :=
  { stx_nlink := 1, stx_uid := 0, stx_gid := 0, stx_mode := 0o120777, stx_size := 2,
    stx_atime := ⟨1700000010, 4⟩, stx_btime := ⟨1700000009, 8⟩,
    stx_ctime := ⟨1700000012, 6⟩, stx_mtime := ⟨1700000011, 5⟩ }

/-- A file system with the regular file `/t` (inode 1, open as descriptor 3, flag word
`0x10`) and the symbolic link `/l` to it (inode 2). -/
def sampleOS : OS :=
  { names := [("/t", 1), ("/l", 2)],
    fds := [(3, 1)],
    inodes := [(1, { st := fileStat, sx := fileStatx, flags := 0x10, link := none, owned := true }),
               (2, { st := linkStat, sx := linkStatx, flags := 0, link := some "/t", owned := true })] }

/-- A process on the sample file system that has issued no request yet. -/
def sampleProc : Proc OS := { kern := sampleOS, errno := 0, calls := [] }

/-- An output record full of `7`s, to tell written fields from untouched ones. -/
def sevens : Statx :=
  { stx_nlink := 7, stx_uid := 7, stx_gid := 7, stx_mode := 7, stx_size := 7,
    stx_atime := ⟨7, 7⟩, stx_btime := ⟨7, 7⟩, stx_ctime := ⟨7, 7⟩, stx_mtime := ⟨7, 7⟩ }


/-- A legacy record, in range for its C types, with more than `2^32` links, mode bits
above bit 15 and a negative size. -/
def wideStat : Stat :=
  { st_nlink := 2 ^ 32 + 2, st_uid := 1000, st_gid := 100, st_mode := 2 ^ 16 + 0o100644,
    st_size := -1,
    st_atim := ⟨1700000000, 1⟩, st_mtim := ⟨1700000001, 2⟩, st_ctim := ⟨1700000002, 3⟩ }

/-- A file system whose only file `/w` (inode 1, open as descriptor 3) is reported
with the record `wideStat`. -/
def wideOS : OS :=
  { names := [("/w", 1)],
    fds := [(3, 1)],
    inodes := [(1, { st := wideStat, sx := fileStatx, flags := 0, link := none, owned := true })] }

/-- A process on `wideOS` that has issued no request yet. -/
def wideProc : Proc OS := { kern := wideOS, errno := 0, calls := [] }

/-! ## Properties used to state the results -/

/-- The record the fallback path of both stat accessors builds from a legacy record. -/
def fromLegacy (st : Stat) : Statx :=
  { stx_nlink := cast_u32 st.st_nlink, stx_uid := cast_u32 st.st_uid,
    stx_gid := cast_u32 st.st_gid, stx_mode := cast_u16 st.st_mode,
    stx_size := cast_u64 st.st_size,
    stx_atime := st.st_atim, stx_btime := omitPair, stx_ctime := st.st_ctim,
    stx_mtime := st.st_mtim }

/-- The extended record `sx` carries the legacy record `st` as far as the field widths
allow: owner ids and the three timestamps are equal, link count, mode and size are
the legacy values reduced modulo `2^32`, `2^16` and `2^64`, hence equal to them when
the legacy value fits the narrower (or unsigned) field. -/
def Stat.CarriedBy (st : Stat) (sx : Statx) : Prop :=
  sx.stx_uid = st.st_uid ∧ sx.stx_gid = st.st_gid ∧
  sx.stx_atime = st.st_atim ∧ sx.stx_mtime = st.st_mtim ∧ sx.stx_ctime = st.st_ctim ∧
  sx.stx_nlink = st.st_nlink % 2 ^ 32 ∧ sx.stx_mode = st.st_mode % 2 ^ 16 ∧
  (sx.stx_size : Int) = st.st_size % 2 ^ 64 ∧
  (st.st_nlink < 2 ^ 32 → sx.stx_nlink = st.st_nlink) ∧
  (st.st_mode < 2 ^ 16 → sx.stx_mode = st.st_mode) ∧
  (0 ≤ st.st_size → (sx.stx_size : Int) = st.st_size)

/-- Two extended records with the same link count, owner ids, mode and size. -/
def Statx.SameBasics (a c : Statx) : Prop :=
  a.stx_nlink = c.stx_nlink ∧ a.stx_uid = c.stx_uid ∧ a.stx_gid = c.stx_gid ∧
  a.stx_mode = c.stx_mode ∧ a.stx_size = c.stx_size

/-- The flags `fstat_compat` passes to `statx`. -/
def fstatFlags : Nat := AT_EMPTY_PATH ||| AT_STATX_SYNC_AS_STAT

/-- The mask both stat accessors pass to `statx`. -/
def statxMask : Nat := STATX_BASIC_STATS ||| STATX_BTIME

end FSIOC

namespace FSIOC

/-! ## Unfolding lemmas for the accessors -/

section Unfold

variable {κ : Type} (b : Build) (k : Kernel κ) (p : Proc κ)

theorem fstat_compat_modern (fd : Int) (stx : Statx) (hb : b.has_NR_statx = true) :
    fstat_compat b k p fd stx =
      (p.after (.statx fd "" fstatFlags statxMask) (k.statx p.kern fd "" fstatFlags statxMask stx).1
          (k.statx p.kern fd "" fstatFlags statxMask stx).2,
        cast_int (k.statx p.kern fd "" fstatFlags statxMask stx).2.ret,
        (k.statx p.kern fd "" fstatFlags statxMask stx).2.buf) := by
  simp [fstat_compat, hb, sys_statx, fstatFlags, statxMask]

theorem stat_compat_modern (path : String) (stx : Statx) (hb : b.has_NR_statx = true) :
    stat_compat b k p path stx =
      (p.after (.statx AT_FDCWD path AT_SYMLINK_NOFOLLOW statxMask)
          (k.statx p.kern AT_FDCWD path AT_SYMLINK_NOFOLLOW statxMask stx).1
          (k.statx p.kern AT_FDCWD path AT_SYMLINK_NOFOLLOW statxMask stx).2,
        cast_int (k.statx p.kern AT_FDCWD path AT_SYMLINK_NOFOLLOW statxMask stx).2.ret,
        (k.statx p.kern AT_FDCWD path AT_SYMLINK_NOFOLLOW statxMask stx).2.buf) := by
  simp [stat_compat, hb, sys_statx, statxMask]

theorem fstat_compat_fail (fd : Int) (stx : Statx) (hb : b.has_NR_statx = false)
    (h : (k.fstat p.kern fd).2.ret ≠ 0) :
    fstat_compat b k p fd stx =
      (p.after (.fstat fd) (k.fstat p.kern fd).1 (k.fstat p.kern fd).2, -1, stx) := by
  simp [fstat_compat, hb, sys_fstat, h]

theorem stat_compat_fail (path : String) (stx : Statx) (hb : b.has_NR_statx = false)
    (h : (k.stat p.kern path).2.ret ≠ 0) :
    stat_compat b k p path stx =
      (p.after (.stat path) (k.stat p.kern path).1 (k.stat p.kern path).2, -1, stx) := by
  simp [stat_compat, hb, sys_stat, h]

theorem fstat_compat_ok (fd : Int) (stx : Statx) (hb : b.has_NR_statx = false)
    (h : (k.fstat p.kern fd).2.ret = 0) :
    fstat_compat b k p fd stx =
      (p.after (.fstat fd) (k.fstat p.kern fd).1 (k.fstat p.kern fd).2, 0,
        fromLegacy (k.fstat p.kern fd).2.buf) := by
  simp [fstat_compat, hb, sys_fstat, h, fromLegacy, omitPair]

theorem stat_compat_ok (path : String) (stx : Statx) (hb : b.has_NR_statx = false)
    (h : (k.stat p.kern path).2.ret = 0) :
    stat_compat b k p path stx =
      (p.after (.stat path) (k.stat p.kern path).1 (k.stat p.kern path).2, 0,
        fromLegacy (k.stat p.kern path).2.buf) := by
  simp [stat_compat, hb, sys_stat, h, fromLegacy, omitPair]

end Unfold

/-! ## The fallback translation -/

theorem fromLegacy_carries (st : Stat) (h : st.InRange) : st.CarriedBy (fromLegacy st) := by
  obtain ⟨_, hu, hg, _, hlo, hhi, _, _, _⟩ := h
  have hnn : (0 : Int) ≤ st.st_size % 2 ^ 64 := Int.emod_nonneg _ (by norm_num)
  have hsz : ((cast_u64 st.st_size : Nat) : Int) = st.st_size % 2 ^ 64 := by
    unfold cast_u64
    exact Int.toNat_of_nonneg hnn
  refine ⟨Nat.mod_eq_of_lt hu, Nat.mod_eq_of_lt hg, rfl, rfl, rfl, rfl, rfl, hsz, ?_, ?_, ?_⟩
  · intro hn
    exact Nat.mod_eq_of_lt hn
  · intro hm
    exact Nat.mod_eq_of_lt hm
  · intro h0
    show ((cast_u64 st.st_size : Nat) : Int) = st.st_size
    rw [hsz]
    exact Int.emod_eq_of_lt h0 (by omega)

theorem fromLegacy_btime (st : Stat) : (fromLegacy st).stx_btime = omitPair := rfl

/-! ## Results -/

/-- C1: in the fallback build (`__NR_statx` not defined), whenever the underlying legacy
call succeeds, `fstat_compat` and `stat_compat` return 0 and leave
`stx_btime.tv_sec = UTIME_OMIT` and `stx_btime.tv_nsec = UTIME_OMIT`, whatever legacy
record the call delivered and whatever the output record held before. -/
theorem C1_fallback_btime_is_omit {κ : Type} (b : Build) (k : Kernel κ) (p : Proc κ)
    (fd : Int) (path : String) (stx : Statx) (hb : b.has_NR_statx = false) :
    ((k.fstat p.kern fd).2.ret = 0 →
      (fstat_compat b k p fd stx).2.1 = 0 ∧
      (fstat_compat b k p fd stx).2.2.stx_btime.tv_sec = UTIME_OMIT ∧
      (fstat_compat b k p fd stx).2.2.stx_btime.tv_nsec = UTIME_OMIT) ∧
    ((k.stat p.kern path).2.ret = 0 →
      (stat_compat b k p path stx).2.1 = 0 ∧
      (stat_compat b k p path stx).2.2.stx_btime.tv_sec = UTIME_OMIT ∧
      (stat_compat b k p path stx).2.2.stx_btime.tv_nsec = UTIME_OMIT) := by
  constructor
  · intro h
    rw [fstat_compat_ok b k p fd stx hb h]
    exact ⟨rfl, rfl, rfl⟩
  · intro h
    rw [stat_compat_ok b k p path stx hb h]
    exact ⟨rfl, rfl, rfl⟩

/-- Witness for C1 on the sample file system: descriptor 3 and path `/t`. -/
theorem C1_fallback_btime_is_omit_witness :
    ((fstat_compat fallbackBuild refKernel sampleProc 3 sevens).2.1 = 0 ∧
      (fstat_compat fallbackBuild refKernel sampleProc 3 sevens).2.2.stx_btime.tv_sec
        = UTIME_OMIT ∧
      (fstat_compat fallbackBuild refKernel sampleProc 3 sevens).2.2.stx_btime.tv_nsec
        = UTIME_OMIT) ∧
    ((stat_compat fallbackBuild refKernel sampleProc "/t" sevens).2.1 = 0 ∧
      (stat_compat fallbackBuild refKernel sampleProc "/t" sevens).2.2.stx_btime.tv_sec
        = UTIME_OMIT ∧
      (stat_compat fallbackBuild refKernel sampleProc "/t" sevens).2.2.stx_btime.tv_nsec
        = UTIME_OMIT) :=
  ⟨(C1_fallback_btime_is_omit fallbackBuild refKernel sampleProc 3 "/t" sevens rfl).1
      (by decide),
   (C1_fallback_btime_is_omit fallbackBuild refKernel sampleProc 3 "/t" sevens rfl).2
      (by decide)⟩

/-- C2 as stated fails: on a legacy record that is in range for its C types
(`wideStat`: `2^32 + 2` links, mode `2^16 + 0100644`, size `-1`) and is returned by a
successful `fstat`, the fallback `fstat_compat` stores link count 2, mode `0100644` and
size `2^64 - 1`, none of which is numerically equal to the legacy field. -/
theorem C2_counterexample :
    wideStat.InRange ∧
    (refKernel.fstat wideProc.kern 3).2.ret = 0 ∧
    (refKernel.fstat wideProc.kern 3).2.buf = wideStat ∧
    (fstat_compat fallbackBuild refKernel wideProc 3 sevens).2.1 = 0 ∧
    (fstat_compat fallbackBuild refKernel wideProc 3 sevens).2.2.stx_nlink = 2 ∧
    (fstat_compat fallbackBuild refKernel wideProc 3 sevens).2.2.stx_nlink
      ≠ wideStat.st_nlink ∧
    (fstat_compat fallbackBuild refKernel wideProc 3 sevens).2.2.stx_mode = 0o100644 ∧
    (fstat_compat fallbackBuild refKernel wideProc 3 sevens).2.2.stx_mode
      ≠ wideStat.st_mode ∧
    (fstat_compat fallbackBuild refKernel wideProc 3 sevens).2.2.stx_size = 2 ^ 64 - 1 ∧
    ((fstat_compat fallbackBuild refKernel wideProc 3 sevens).2.2.stx_size : Int)
      ≠ wideStat.st_size := by
  refine ⟨?_, by decide, by decide, by decide, by decide, by decide, by decide, by decide,
    by decide, by decide⟩
  simp only [Stat.InRange, Timespec.InRange, wideStat]
  norm_num

/-- C2 (amended): in the fallback build, for every legacy record that is in range for
its C types and is returned by a successful call, the output has `stx_uid`, `stx_gid`,
`stx_atime`, `stx_mtime`, `stx_ctime` equal to `st_uid`, `st_gid`, `st_atim`, `st_mtim`,
`st_ctim`, and `stx_nlink`, `stx_mode`, `stx_size` equal to `st_nlink` modulo `2^32`,
`st_mode` modulo `2^16` and `st_size` modulo `2^64`; these three are numerically equal
to the legacy fields whenever `st_nlink < 2^32`, `st_mode < 2^16` and `0 ≤ st_size`. -/
theorem C2_fallback_translation {κ : Type} (b : Build) (k : Kernel κ) (p : Proc κ)
    (fd : Int) (path : String) (stx : Statx) (hb : b.has_NR_statx = false) :
    ((k.fstat p.kern fd).2.ret = 0 → (k.fstat p.kern fd).2.buf.InRange →
      (k.fstat p.kern fd).2.buf.CarriedBy (fstat_compat b k p fd stx).2.2) ∧
    ((k.stat p.kern path).2.ret = 0 → (k.stat p.kern path).2.buf.InRange →
      (k.stat p.kern path).2.buf.CarriedBy (stat_compat b k p path stx).2.2) := by
  constructor
  · intro h hr
    rw [fstat_compat_ok b k p fd stx hb h]
    exact fromLegacy_carries _ hr
  · intro h hr
    rw [stat_compat_ok b k p path stx hb h]
    exact fromLegacy_carries _ hr

theorem fileStat_inRange : fileStat.InRange := by
  simp only [Stat.InRange, Timespec.InRange, fileStat]
  norm_num

/-- Witness for C2 (amended) on the sample file system: descriptor 3 and path `/t`. -/
theorem C2_fallback_translation_witness :
    fileStat.CarriedBy (fstat_compat fallbackBuild refKernel sampleProc 3 sevens).2.2 ∧
    fileStat.CarriedBy (stat_compat fallbackBuild refKernel sampleProc "/t" sevens).2.2 :=
  ⟨(C2_fallback_translation fallbackBuild refKernel sampleProc 3 "/t" sevens rfl).1
      (by decide) fileStat_inRange,
   (C2_fallback_translation fallbackBuild refKernel sampleProc 3 "/t" sevens rfl).2
      (by decide) fileStat_inRange⟩

/-- C3, fallback build, at the failing input: on the sample file system `/l` is a
symbolic link to the regular file `/t`.  The fallback `stat_compat "/l"` issues the one
request `stat "/l"`, succeeds, and stores the metadata of the target `/t` (size 5000,
mode `0100644`, owner 1000) and not of the link itself (size 2, mode `0120777`,
owner 0). -/
theorem C3_fallback_stat_compat_follows_link :
    sampleOS.namei "/l" false = .ok 2 ∧
    sampleOS.inodes.lookup 2 =
      some { st := linkStat, sx := linkStatx, flags := 0, link := some "/t", owned := true } ∧
    (stat_compat fallbackBuild refKernel sampleProc "/l" sevens).1.calls = [.stat "/l"] ∧
    (stat_compat fallbackBuild refKernel sampleProc "/l" sevens).2.1 = 0 ∧
    (stat_compat fallbackBuild refKernel sampleProc "/l" sevens).2.2 = fromLegacy fileStat ∧
    (stat_compat fallbackBuild refKernel sampleProc "/l" sevens).2.2 ≠ fromLegacy linkStat ∧
    (stat_compat fallbackBuild refKernel sampleProc "/l" sevens).2.2.stx_size = 5000 ∧
    (stat_compat fallbackBuild refKernel sampleProc "/l" sevens).2.2.stx_mode = 0o100644 ∧
    linkStat.st_size = 2 ∧ linkStat.st_mode = 0o120777 := by
  refine ⟨rfl, by decide, by decide, by decide, by decide, by decide, by decide,
    by decide, by decide, by decide⟩

/-- In a build with `__NR_statx`, `stat_compat` passes `AT_SYMLINK_NOFOLLOW`, and on the
sample file system `stat_compat "/l"` stores the metadata of the link itself. -/
theorem modern_stat_compat_reports_link :
    AT_SYMLINK_NOFOLLOW &&& AT_SYMLINK_NOFOLLOW ≠ 0 ∧
    (stat_compat modernBuild refKernel sampleProc "/l" sevens).1.calls =
      [.statx AT_FDCWD "/l" AT_SYMLINK_NOFOLLOW statxMask] ∧
    (stat_compat modernBuild refKernel sampleProc "/l" sevens).2 = (0, linkStatx) := by
  refine ⟨by decide, by decide, by decide⟩

/-- C4: in a build where `FS_IOC_GETFLAGS` is not defined `fgetFileFlags`, and in a
build where `FS_IOC_SETFLAGS` is not defined `fsetFileFlags`, returns -1 with `errno`
set to `ENOSYS` for every descriptor and every flags value, issues no request (the log
and the kernel state are unchanged), and `fgetFileFlags` leaves `*flags` unchanged. -/
theorem C4_flags_not_supported {κ : Type} (b : Build) (k : Kernel κ) (p : Proc κ)
    (fd : Int) (flags : Nat) :
    (b.has_FS_IOC_GETFLAGS = false →
      (fgetFileFlags b k p fd flags).2.1 = -1 ∧
      (fgetFileFlags b k p fd flags).1.errno = ENOSYS ∧
      (fgetFileFlags b k p fd flags).1.calls = p.calls ∧
      (fgetFileFlags b k p fd flags).1.kern = p.kern ∧
      (fgetFileFlags b k p fd flags).2.2 = flags) ∧
    (b.has_FS_IOC_SETFLAGS = false →
      (fsetFileFlags b k p fd flags).2 = -1 ∧
      (fsetFileFlags b k p fd flags).1.errno = ENOSYS ∧
      (fsetFileFlags b k p fd flags).1.calls = p.calls ∧
      (fsetFileFlags b k p fd flags).1.kern = p.kern) := by
  constructor
  · intro h
    simp [fgetFileFlags, h]
  · intro h
    simp [fsetFileFlags, h]

/-- Witness for C4: the build without the request codes, on the valid descriptor 3. -/
theorem C4_flags_not_supported_witness :
    ((fgetFileFlags bareBuild refKernel sampleProc 3 99).2.1 = -1 ∧
      (fgetFileFlags bareBuild refKernel sampleProc 3 99).1.errno = ENOSYS ∧
      (fgetFileFlags bareBuild refKernel sampleProc 3 99).1.calls = sampleProc.calls ∧
      (fgetFileFlags bareBuild refKernel sampleProc 3 99).1.kern = sampleProc.kern ∧
      (fgetFileFlags bareBuild refKernel sampleProc 3 99).2.2 = 99) ∧
    ((fsetFileFlags bareBuild refKernel sampleProc 3 99).2 = -1 ∧
      (fsetFileFlags bareBuild refKernel sampleProc 3 99).1.errno = ENOSYS ∧
      (fsetFileFlags bareBuild refKernel sampleProc 3 99).1.calls = sampleProc.calls ∧
      (fsetFileFlags bareBuild refKernel sampleProc 3 99).1.kern = sampleProc.kern) :=
  ⟨(C4_flags_not_supported bareBuild refKernel sampleProc 3 99).1 rfl,
   (C4_flags_not_supported bareBuild refKernel sampleProc 3 99).2 rfl⟩

/-- C5: in the fallback build, when the underlying legacy call fails (returns non-zero)
`fstat_compat` and `stat_compat` return the failure value -1 and the output record is
exactly what it was before the call; when it succeeds they return 0 and the output
record is the same whatever it held before the call, that is, all nine fields (both
halves of `stx_btime` included) are written. -/
theorem C5_fallback_all_or_nothing {κ : Type} (b : Build) (k : Kernel κ) (p : Proc κ)
    (fd : Int) (path : String) (stx : Statx) (hb : b.has_NR_statx = false) :
    ((k.fstat p.kern fd).2.ret ≠ 0 →
      (fstat_compat b k p fd stx).2.1 = -1 ∧ (fstat_compat b k p fd stx).2.2 = stx) ∧
    ((k.stat p.kern path).2.ret ≠ 0 →
      (stat_compat b k p path stx).2.1 = -1 ∧ (stat_compat b k p path stx).2.2 = stx) ∧
    ((k.fstat p.kern fd).2.ret = 0 →
      (fstat_compat b k p fd stx).2.1 = 0 ∧
      (fstat_compat b k p fd stx).2.2 = fromLegacy (k.fstat p.kern fd).2.buf ∧
      ∀ other : Statx, (fstat_compat b k p fd other).2.2 = (fstat_compat b k p fd stx).2.2) ∧
    ((k.stat p.kern path).2.ret = 0 →
      (stat_compat b k p path stx).2.1 = 0 ∧
      (stat_compat b k p path stx).2.2 = fromLegacy (k.stat p.kern path).2.buf ∧
      ∀ other : Statx,
        (stat_compat b k p path other).2.2 = (stat_compat b k p path stx).2.2) := by
  refine ⟨?_, ?_, ?_, ?_⟩
  · intro h
    rw [fstat_compat_fail b k p fd stx hb h]
    exact ⟨rfl, rfl⟩
  · intro h
    rw [stat_compat_fail b k p path stx hb h]
    exact ⟨rfl, rfl⟩
  · intro h
    refine ⟨?_, ?_, ?_⟩
    · rw [fstat_compat_ok b k p fd stx hb h]
    · rw [fstat_compat_ok b k p fd stx hb h]
    · intro other
      rw [fstat_compat_ok b k p fd stx hb h, fstat_compat_ok b k p fd other hb h]
  · intro h
    refine ⟨?_, ?_, ?_⟩
    · rw [stat_compat_ok b k p path stx hb h]
    · rw [stat_compat_ok b k p path stx hb h]
    · intro other
      rw [stat_compat_ok b k p path stx hb h, stat_compat_ok b k p path other hb h]

/-- Witness for C5 on the sample file system: descriptor 4 is not open and `/none`
does not exist, descriptor 3 is open and `/t` exists. -/
theorem C5_fallback_all_or_nothing_witness :
    ((fstat_compat fallbackBuild refKernel sampleProc 4 sevens).2.1 = -1 ∧
      (fstat_compat fallbackBuild refKernel sampleProc 4 sevens).2.2 = sevens) ∧
    ((stat_compat fallbackBuild refKernel sampleProc "/none" sevens).2.1 = -1 ∧
      (stat_compat fallbackBuild refKernel sampleProc "/none" sevens).2.2 = sevens) ∧
    ((fstat_compat fallbackBuild refKernel sampleProc 3 sevens).2.1 = 0 ∧
      (fstat_compat fallbackBuild refKernel sampleProc 3 sevens).2.2
        = fromLegacy (refKernel.fstat sampleProc.kern 3).2.buf ∧
      (fstat_compat fallbackBuild refKernel sampleProc 3 linkStatx).2.2
        = (fstat_compat fallbackBuild refKernel sampleProc 3 sevens).2.2) ∧
    ((stat_compat fallbackBuild refKernel sampleProc "/t" sevens).2.1 = 0 ∧
      (stat_compat fallbackBuild refKernel sampleProc "/t" sevens).2.2
        = fromLegacy (refKernel.stat sampleProc.kern "/t").2.buf ∧
      (stat_compat fallbackBuild refKernel sampleProc "/t" linkStatx).2.2
        = (stat_compat fallbackBuild refKernel sampleProc "/t" sevens).2.2) :=
  ⟨(C5_fallback_all_or_nothing fallbackBuild refKernel sampleProc 4 "/none" sevens rfl).1
      (by decide),
   (C5_fallback_all_or_nothing fallbackBuild refKernel sampleProc 4 "/none" sevens rfl).2.1
      (by decide),
   ⟨((C5_fallback_all_or_nothing fallbackBuild refKernel sampleProc 3 "/t" sevens rfl).2.2.1
      (by decide)).1,
    ((C5_fallback_all_or_nothing fallbackBuild refKernel sampleProc 3 "/t" sevens rfl).2.2.1
      (by decide)).2.1,
    ((C5_fallback_all_or_nothing fallbackBuild refKernel sampleProc 3 "/t" sevens rfl).2.2.1
      (by decide)).2.2 linkStatx⟩,
   ⟨((C5_fallback_all_or_nothing fallbackBuild refKernel sampleProc 3 "/t" sevens rfl).2.2.2
      (by decide)).1,
    ((C5_fallback_all_or_nothing fallbackBuild refKernel sampleProc 3 "/t" sevens rfl).2.2.2
      (by decide)).2.1,
    ((C5_fallback_all_or_nothing fallbackBuild refKernel sampleProc 3 "/t" sevens rfl).2.2.2
      (by decide)).2.2 linkStatx⟩⟩

/-- C6: for both entry points and in both builds, whenever the underlying call fails
(returns -1, the failure value of `syscall`, `fstat` and `stat`), the accessor returns
exactly the value that call returned, and `errno` after the accessor is `errno` as that
call left it. -/
theorem C6_failure_passed_through {κ : Type} (b : Build) (k : Kernel κ) (p : Proc κ)
    (fd : Int) (path : String) (stx : Statx) :
    (b.has_NR_statx = true →
      ((sys_statx k p fd "" fstatFlags statxMask stx).2.1 = -1 →
        (fstat_compat b k p fd stx).2.1 = (sys_statx k p fd "" fstatFlags statxMask stx).2.1 ∧
        (fstat_compat b k p fd stx).1.errno
          = (sys_statx k p fd "" fstatFlags statxMask stx).1.errno) ∧
      ((sys_statx k p AT_FDCWD path AT_SYMLINK_NOFOLLOW statxMask stx).2.1 = -1 →
        (stat_compat b k p path stx).2.1
          = (sys_statx k p AT_FDCWD path AT_SYMLINK_NOFOLLOW statxMask stx).2.1 ∧
        (stat_compat b k p path stx).1.errno
          = (sys_statx k p AT_FDCWD path AT_SYMLINK_NOFOLLOW statxMask stx).1.errno)) ∧
    (b.has_NR_statx = false →
      ((sys_fstat k p fd).2.1 = -1 →
        (fstat_compat b k p fd stx).2.1 = (sys_fstat k p fd).2.1 ∧
        (fstat_compat b k p fd stx).1.errno = (sys_fstat k p fd).1.errno) ∧
      ((sys_stat k p path).2.1 = -1 →
        (stat_compat b k p path stx).2.1 = (sys_stat k p path).2.1 ∧
        (stat_compat b k p path stx).1.errno = (sys_stat k p path).1.errno)) := by
  constructor
  · intro hb
    constructor
    · intro h
      have h1 : (k.statx p.kern fd "" fstatFlags statxMask stx).2.ret = -1 := h
      rw [fstat_compat_modern b k p fd stx hb, h1]
      exact ⟨(by decide : cast_int (-1) = -1).trans h.symm, rfl⟩
    · intro h
      have h1 : (k.statx p.kern AT_FDCWD path AT_SYMLINK_NOFOLLOW statxMask stx).2.ret = -1 := h
      rw [stat_compat_modern b k p path stx hb, h1]
      exact ⟨(by decide : cast_int (-1) = -1).trans h.symm, rfl⟩
  · intro hb
    constructor
    · intro h
      have h1 : (k.fstat p.kern fd).2.ret = -1 := h
      have hne : (k.fstat p.kern fd).2.ret ≠ 0 := by rw [h1]; decide
      rw [fstat_compat_fail b k p fd stx hb hne]
      exact ⟨h.symm, rfl⟩
    · intro h
      have h1 : (k.stat p.kern path).2.ret = -1 := h
      have hne : (k.stat p.kern path).2.ret ≠ 0 := by rw [h1]; decide
      rw [stat_compat_fail b k p path stx hb hne]
      exact ⟨h.symm, rfl⟩

/-- Witness for C6 on the sample file system: descriptor 4 is not open (`EBADF`) and
`/none` does not exist (`ENOENT`), in the build with `statx` and in the fallback build. -/
theorem C6_failure_passed_through_witness :
    ((fstat_compat modernBuild refKernel sampleProc 4 sevens).2.1
        = (sys_statx refKernel sampleProc 4 "" fstatFlags statxMask sevens).2.1 ∧
      (fstat_compat modernBuild refKernel sampleProc 4 sevens).1.errno
        = (sys_statx refKernel sampleProc 4 "" fstatFlags statxMask sevens).1.errno) ∧
    ((stat_compat modernBuild refKernel sampleProc "/none" sevens).2.1
        = (sys_statx refKernel sampleProc AT_FDCWD "/none" AT_SYMLINK_NOFOLLOW statxMask
            sevens).2.1 ∧
      (stat_compat modernBuild refKernel sampleProc "/none" sevens).1.errno
        = (sys_statx refKernel sampleProc AT_FDCWD "/none" AT_SYMLINK_NOFOLLOW statxMask
            sevens).1.errno) ∧
    ((fstat_compat fallbackBuild refKernel sampleProc 4 sevens).2.1
        = (sys_fstat refKernel sampleProc 4).2.1 ∧
      (fstat_compat fallbackBuild refKernel sampleProc 4 sevens).1.errno
        = (sys_fstat refKernel sampleProc 4).1.errno) ∧
    ((stat_compat fallbackBuild refKernel sampleProc "/none" sevens).2.1
        = (sys_stat refKernel sampleProc "/none").2.1 ∧
      (stat_compat fallbackBuild refKernel sampleProc "/none" sevens).1.errno
        = (sys_stat refKernel sampleProc "/none").1.errno) :=
  ⟨((C6_failure_passed_through modernBuild refKernel sampleProc 4 "/none" sevens).1 rfl).1
      (by decide),
   ((C6_failure_passed_through modernBuild refKernel sampleProc 4 "/none" sevens).1 rfl).2
      (by decide),
   ((C6_failure_passed_through fallbackBuild refKernel sampleProc 4 "/none" sevens).2 rfl).1
      (by decide),
   ((C6_failure_passed_through fallbackBuild refKernel sampleProc 4 "/none" sevens).2 rfl).2
      (by decide)⟩

/-- The failing calls of the C6 witness return -1 and leave `EBADF` and `ENOENT`. -/
theorem sample_failures :
    (fstat_compat modernBuild refKernel sampleProc 4 sevens).2.1 = -1 ∧
    (fstat_compat modernBuild refKernel sampleProc 4 sevens).1.errno = EBADF ∧
    (stat_compat modernBuild refKernel sampleProc "/none" sevens).2.1 = -1 ∧
    (stat_compat modernBuild refKernel sampleProc "/none" sevens).1.errno = ENOENT ∧
    (fstat_compat fallbackBuild refKernel sampleProc 4 sevens).2.1 = -1 ∧
    (fstat_compat fallbackBuild refKernel sampleProc 4 sevens).1.errno = EBADF ∧
    (stat_compat fallbackBuild refKernel sampleProc "/none" sevens).2.1 = -1 ∧
    (stat_compat fallbackBuild refKernel sampleProc "/none" sevens).1.errno = ENOENT := by
  refine ⟨by decide, by decide, by decide, by decide, by decide, by decide, by decide,
    by decide⟩

theorem cast_int_of_range (r : Int) (hlo : -2 ^ 31 ≤ r) (hhi : r < 2 ^ 31) : cast_int r = r := by
  unfold cast_int
  rw [Int.emod_eq_of_lt (by omega) (by omega)]
  omega

/-- C8: which request an accessor issues is fixed by the build alone.  In a build with
the modern call (`__NR_statx` defined), for every kernel behaviour and every input, each
accessor issues exactly one request, the `statx` request, and no `fstat` or `stat`
request, whether that request succeeds or fails; it returns the result of that request
converted to `int`, which is the result itself for every value in the range of `int` (in
particular 0 and the failure value -1), and the record is as the request left it.  In the
fallback build each accessor issues exactly one legacy request and no `statx` request. -/
theorem C8_request_fixed_by_build {κ : Type} (b : Build) (k : Kernel κ) (p : Proc κ)
    (fd : Int) (path : String) (stx : Statx) :
    (b.has_NR_statx = true →
      ((fstat_compat b k p fd stx).1.calls
          = p.calls ++ [.statx fd "" (AT_EMPTY_PATH ||| AT_STATX_SYNC_AS_STAT)
              (STATX_BASIC_STATS ||| STATX_BTIME)] ∧
        (fstat_compat b k p fd stx).2.1
          = cast_int (sys_statx k p fd "" fstatFlags statxMask stx).2.1 ∧
        (-2 ^ 31 ≤ (sys_statx k p fd "" fstatFlags statxMask stx).2.1 →
          (sys_statx k p fd "" fstatFlags statxMask stx).2.1 < 2 ^ 31 →
          (fstat_compat b k p fd stx).2.1
            = (sys_statx k p fd "" fstatFlags statxMask stx).2.1) ∧
        (fstat_compat b k p fd stx).2.2
          = (sys_statx k p fd "" fstatFlags statxMask stx).2.2) ∧
      ((stat_compat b k p path stx).1.calls
          = p.calls ++ [.statx AT_FDCWD path AT_SYMLINK_NOFOLLOW
              (STATX_BASIC_STATS ||| STATX_BTIME)] ∧
        (stat_compat b k p path stx).2.1
          = cast_int (sys_statx k p AT_FDCWD path AT_SYMLINK_NOFOLLOW statxMask stx).2.1 ∧
        (-2 ^ 31 ≤ (sys_statx k p AT_FDCWD path AT_SYMLINK_NOFOLLOW statxMask stx).2.1 →
          (sys_statx k p AT_FDCWD path AT_SYMLINK_NOFOLLOW statxMask stx).2.1 < 2 ^ 31 →
          (stat_compat b k p path stx).2.1
            = (sys_statx k p AT_FDCWD path AT_SYMLINK_NOFOLLOW statxMask stx).2.1) ∧
        (stat_compat b k p path stx).2.2
          = (sys_statx k p AT_FDCWD path AT_SYMLINK_NOFOLLOW statxMask stx).2.2)) ∧
    (b.has_NR_statx = false →
      (fstat_compat b k p fd stx).1.calls = p.calls ++ [.fstat fd] ∧
      (stat_compat b k p path stx).1.calls = p.calls ++ [.stat path]) := by
  constructor
  · intro hb
    constructor
    · rw [fstat_compat_modern b k p fd stx hb]
      refine ⟨rfl, rfl, ?_, rfl⟩
      intro hlo hhi
      exact cast_int_of_range _ hlo hhi
    · rw [stat_compat_modern b k p path stx hb]
      refine ⟨rfl, rfl, ?_, rfl⟩
      intro hlo hhi
      exact cast_int_of_range _ hlo hhi
  · intro hb
    constructor
    · by_cases h : (k.fstat p.kern fd).2.ret = 0
      · rw [fstat_compat_ok b k p fd stx hb h]
        rfl
      · rw [fstat_compat_fail b k p fd stx hb h]
        rfl
    · by_cases h : (k.stat p.kern path).2.ret = 0
      · rw [stat_compat_ok b k p path stx hb h]
        rfl
      · rw [stat_compat_fail b k p path stx hb h]
        rfl

/-- Witness for C8 on the sample file system, at failing requests: descriptor 4 is not
open and `/none` does not exist; in the build with `statx` one `statx` request each and
its result -1 returned, in the fallback build one legacy request each. -/
theorem C8_request_fixed_by_build_witness :
    (((fstat_compat modernBuild refKernel sampleProc 4 sevens).1.calls
        = sampleProc.calls ++ [.statx 4 "" (AT_EMPTY_PATH ||| AT_STATX_SYNC_AS_STAT)
            (STATX_BASIC_STATS ||| STATX_BTIME)] ∧
      (fstat_compat modernBuild refKernel sampleProc 4 sevens).2.1
        = (sys_statx refKernel sampleProc 4 "" fstatFlags statxMask sevens).2.1) ∧
    ((stat_compat modernBuild refKernel sampleProc "/none" sevens).1.calls
        = sampleProc.calls ++ [.statx AT_FDCWD "/none" AT_SYMLINK_NOFOLLOW
            (STATX_BASIC_STATS ||| STATX_BTIME)] ∧
      (stat_compat modernBuild refKernel sampleProc "/none" sevens).2.1
        = (sys_statx refKernel sampleProc AT_FDCWD "/none" AT_SYMLINK_NOFOLLOW statxMask
            sevens).2.1)) ∧
    ((fstat_compat fallbackBuild refKernel sampleProc 4 sevens).1.calls
        = sampleProc.calls ++ [.fstat 4] ∧
      (stat_compat fallbackBuild refKernel sampleProc "/none" sevens).1.calls
        = sampleProc.calls ++ [.stat "/none"]) :=
  ⟨⟨⟨((C8_request_fixed_by_build modernBuild refKernel sampleProc 4 "/none" sevens).1
        rfl).1.1,
      ((C8_request_fixed_by_build modernBuild refKernel sampleProc 4 "/none" sevens).1
        rfl).1.2.2.1 (by decide) (by decide)⟩,
    ⟨((C8_request_fixed_by_build modernBuild refKernel sampleProc 4 "/none" sevens).1
        rfl).2.1,
      ((C8_request_fixed_by_build modernBuild refKernel sampleProc 4 "/none" sevens).1
        rfl).2.2.2.1 (by decide) (by decide)⟩⟩,
   (C8_request_fixed_by_build fallbackBuild refKernel sampleProc 4 "/none" sevens).2 rfl⟩

theorem omitPair_nsec : omitPair.tv_nsec = 1073741822 := by decide

theorem validNsec_ne_omitPair (t : Timespec) (h : t.ValidNsec) : t ≠ omitPair := by
  intro he
  have h2 : t.tv_nsec < 10 ^ 9 := h.2
  rw [he, omitPair_nsec] at h2
  norm_num at h2

/-- C10: the exported constants satisfy `UTIME_OMIT_INTEROP = UTIME_OMIT = 2^30 - 2` and
`UTIME_NOW_INTEROP = UTIME_NOW = 2^30 - 1`; the two are distinct, non-zero and outside
the nanosecond range `[0, 10^9)`, so the sentinel pair is not a valid timestamp; and in
the fallback build, for every legacy record whose three timestamps have nanoseconds in
`[0, 10^9)`, a successful call yields `stx_atime`, `stx_mtime`, `stx_ctime` all different
from the sentinel pair while `stx_btime` equals it. -/
theorem C10_only_btime_is_sentinel {κ : Type} (b : Build) (k : Kernel κ) (p : Proc κ)
    (fd : Int) (path : String) (stx : Statx) (hb : b.has_NR_statx = false) :
    (UTIME_OMIT_INTEROP = UTIME_OMIT ∧ UTIME_OMIT = 2 ^ 30 - 2 ∧
      UTIME_NOW_INTEROP = UTIME_NOW ∧ UTIME_NOW = 2 ^ 30 - 1 ∧
      UTIME_OMIT ≠ UTIME_NOW ∧ UTIME_OMIT ≠ 0 ∧ UTIME_NOW ≠ 0 ∧
      ¬ (0 ≤ UTIME_OMIT ∧ UTIME_OMIT < 10 ^ 9) ∧ ¬ (0 ≤ UTIME_NOW ∧ UTIME_NOW < 10 ^ 9) ∧
      ¬ omitPair.ValidNsec) ∧
    ((k.fstat p.kern fd).2.ret = 0 →
      (k.fstat p.kern fd).2.buf.st_atim.ValidNsec →
      (k.fstat p.kern fd).2.buf.st_mtim.ValidNsec →
      (k.fstat p.kern fd).2.buf.st_ctim.ValidNsec →
      (fstat_compat b k p fd stx).2.2.stx_atime ≠ omitPair ∧
      (fstat_compat b k p fd stx).2.2.stx_mtime ≠ omitPair ∧
      (fstat_compat b k p fd stx).2.2.stx_ctime ≠ omitPair ∧
      (fstat_compat b k p fd stx).2.2.stx_btime = omitPair) ∧
    ((k.stat p.kern path).2.ret = 0 →
      (k.stat p.kern path).2.buf.st_atim.ValidNsec →
      (k.stat p.kern path).2.buf.st_mtim.ValidNsec →
      (k.stat p.kern path).2.buf.st_ctim.ValidNsec →
      (stat_compat b k p path stx).2.2.stx_atime ≠ omitPair ∧
      (stat_compat b k p path stx).2.2.stx_mtime ≠ omitPair ∧
      (stat_compat b k p path stx).2.2.stx_ctime ≠ omitPair ∧
      (stat_compat b k p path stx).2.2.stx_btime = omitPair) := by
  refine ⟨⟨by decide, by decide, by decide, by decide, by decide, by decide, by decide,
    by decide, by decide, ?_⟩, ?_, ?_⟩
  · intro h
    have h2 : omitPair.tv_nsec < 10 ^ 9 := h.2
    rw [omitPair_nsec] at h2
    norm_num at h2
  · intro h ha hm hc
    rw [fstat_compat_ok b k p fd stx hb h]
    exact ⟨validNsec_ne_omitPair _ ha, validNsec_ne_omitPair _ hm,
      validNsec_ne_omitPair _ hc, rfl⟩
  · intro h ha hm hc
    rw [stat_compat_ok b k p path stx hb h]
    exact ⟨validNsec_ne_omitPair _ ha, validNsec_ne_omitPair _ hm,
      validNsec_ne_omitPair _ hc, rfl⟩

/-- Witness for C10 on the sample file system: descriptor 3 and path `/t`. -/
theorem C10_only_btime_is_sentinel_witness :
    ((fstat_compat fallbackBuild refKernel sampleProc 3 sevens).2.2.stx_atime ≠ omitPair ∧
      (fstat_compat fallbackBuild refKernel sampleProc 3 sevens).2.2.stx_mtime ≠ omitPair ∧
      (fstat_compat fallbackBuild refKernel sampleProc 3 sevens).2.2.stx_ctime ≠ omitPair ∧
      (fstat_compat fallbackBuild refKernel sampleProc 3 sevens).2.2.stx_btime = omitPair) ∧
    ((stat_compat fallbackBuild refKernel sampleProc "/t" sevens).2.2.stx_atime ≠ omitPair ∧
      (stat_compat fallbackBuild refKernel sampleProc "/t" sevens).2.2.stx_mtime ≠ omitPair ∧
      (stat_compat fallbackBuild refKernel sampleProc "/t" sevens).2.2.stx_ctime ≠ omitPair ∧
      (stat_compat fallbackBuild refKernel sampleProc "/t" sevens).2.2.stx_btime = omitPair) :=
  ⟨(C10_only_btime_is_sentinel fallbackBuild refKernel sampleProc 3 "/t" sevens rfl).2.1
      (by decide) (by decide) (by decide) (by decide),
   (C10_only_btime_is_sentinel fallbackBuild refKernel sampleProc 3 "/t" sevens rfl).2.2
      (by decide) (by decide) (by decide) (by decide)⟩

/-! ## The reference model -/

theorem report_ok {β : Type} (os : OS) (i : Nat) (nd : Inode) (pick : Inode → β) (buf : β)
    (h : os.inodes.lookup i = some nd) :
    os.report (.ok i) pick buf = { ret := 0, err := none, buf := pick nd } := by
  simp [OS.report, h]

theorem namei_nofollow_ok (os : OS) (path : String) (i : Nat)
    (h : os.namei path false = .ok i) : path ≠ "" ∧ os.names.lookup path = some i := by
  unfold OS.namei at h
  by_cases hp : path = ""
  · simp [hp] at h
  · refine ⟨hp, ?_⟩
    cases hl : os.names.lookup path with
    | none => simp [hp, hl] at h
    | some j =>
      simp [hp, hl] at h
      rw [h]

theorem namei_follow_regular (os : OS) (path : String) (i : Nat) (nd : Inode)
    (h : os.namei path false = .ok i) (hnd : os.inodes.lookup i = some nd)
    (hreg : nd.link = none) : os.namei path true = .ok i := by
  obtain ⟨hp, hl⟩ := namei_nofollow_ok os path i h
  simp [OS.namei, hp, hl, OS.deref, hnd, hreg]

theorem statx_empty_path (os : OS) (fd : Int) (stx : Statx) :
    OS.statx os fd "" fstatFlags statxMask stx = (os, os.report (os.fdget fd) Inode.sx stx) := by
  have hf : fstatFlags &&& AT_EMPTY_PATH ≠ 0 := by decide
  simp [OS.statx, hf]

theorem statx_nofollow (os : OS) (path : String) (stx : Statx) (hp : path ≠ "") :
    OS.statx os AT_FDCWD path AT_SYMLINK_NOFOLLOW statxMask stx
      = (os, os.report (os.namei path false) Inode.sx stx) := by
  have hf : (decide (AT_SYMLINK_NOFOLLOW &&& AT_SYMLINK_NOFOLLOW = 0)) = false := by decide
  unfold OS.statx
  rw [hf]
  simp [hp]

/-- C7: on the reference model, in either build, if the descriptor `fd` is open on inode
`i`, the path names inode `i`, and that inode is not a symbolic link, then from the same
file state `fstat_compat fd` and `stat_compat path` both succeed and produce records
with identical `stx_nlink`, `stx_uid`, `stx_gid`, `stx_mode` and `stx_size`.  Moreover, in
the fallback build and for every kernel, when `fstat` and `stat` succeed with the same
legacy record the two output records are equal. -/
theorem C7_descriptor_and_path_agree (b : Build) (p q : Proc OS) (fd : Int) (path : String)
    (i : Nat) (nd : Inode) (stx sty : Statx)
    (hq : q.kern = p.kern)
    (hfd : p.kern.fdget fd = .ok i) (hpath : p.kern.namei path false = .ok i)
    (hnd : p.kern.inodes.lookup i = some nd) (hreg : nd.link = none) :
    ((fstat_compat b refKernel p fd stx).2.1 = 0 ∧
      (stat_compat b refKernel q path sty).2.1 = 0 ∧
      (fstat_compat b refKernel p fd stx).2.2.SameBasics
        (stat_compat b refKernel q path sty).2.2) ∧
    (b.has_NR_statx = false →
      ∀ (κ : Type) (k : Kernel κ) (p1 q1 : Proc κ),
        (k.fstat p1.kern fd).2.ret = 0 → (k.stat q1.kern path).2.ret = 0 →
        (k.fstat p1.kern fd).2.buf = (k.stat q1.kern path).2.buf →
        (fstat_compat b k p1 fd stx).2.2 = (stat_compat b k q1 path sty).2.2) := by
  constructor
  · obtain ⟨hp, _⟩ := namei_nofollow_ok p.kern path i hpath
    cases hb : b.has_NR_statx with
    | true =>
      have e1 : refKernel.statx p.kern fd "" fstatFlags statxMask stx
          = (p.kern, { ret := 0, err := none, buf := nd.sx }) := by
        show OS.statx p.kern fd "" fstatFlags statxMask stx = _
        rw [statx_empty_path, hfd, report_ok p.kern i nd Inode.sx stx hnd]
      have e2 : refKernel.statx q.kern AT_FDCWD path AT_SYMLINK_NOFOLLOW statxMask sty
          = (p.kern, { ret := 0, err := none, buf := nd.sx }) := by
        show OS.statx q.kern AT_FDCWD path AT_SYMLINK_NOFOLLOW statxMask sty = _
        rw [hq, statx_nofollow p.kern path sty hp, hpath,
          report_ok p.kern i nd Inode.sx sty hnd]
      rw [fstat_compat_modern b refKernel p fd stx hb,
        stat_compat_modern b refKernel q path sty hb, e1, e2]
      have hc : cast_int 0 = 0 := by decide
      exact ⟨hc, hc, rfl, rfl, rfl, rfl, rfl⟩
    | false =>
      have e1 : refKernel.fstat p.kern fd
          = (p.kern, { ret := 0, err := none, buf := nd.st }) := by
        show OS.fstat p.kern fd = _
        unfold OS.fstat
        rw [hfd, report_ok p.kern i nd Inode.st Stat.unset hnd]
      have e2 : refKernel.stat q.kern path
          = (p.kern, { ret := 0, err := none, buf := nd.st }) := by
        show OS.stat q.kern path = _
        unfold OS.stat
        rw [hq, namei_follow_regular p.kern path i nd hpath hnd hreg,
          report_ok p.kern i nd Inode.st Stat.unset hnd]
      have h1 : (refKernel.fstat p.kern fd).2.ret = 0 := by rw [e1]
      have h2 : (refKernel.stat q.kern path).2.ret = 0 := by rw [e2]
      rw [fstat_compat_ok b refKernel p fd stx hb h1,
        stat_compat_ok b refKernel q path sty hb h2, e1, e2]
      exact ⟨rfl, rfl, rfl, rfl, rfl, rfl, rfl⟩
  · intro hb κ k p1 q1 h1 h2 he
    rw [fstat_compat_ok b k p1 fd stx hb h1, stat_compat_ok b k q1 path sty hb h2, he]

/-- Witness for C7 on the sample file system, in the fallback build: descriptor 3 is
open on the regular file `/t`. -/
theorem C7_descriptor_and_path_agree_witness :
    (fstat_compat fallbackBuild refKernel sampleProc 3 sevens).2.1 = 0 ∧
    (stat_compat fallbackBuild refKernel sampleProc "/t" sevens).2.1 = 0 ∧
    (fstat_compat fallbackBuild refKernel sampleProc 3 sevens).2.2.SameBasics
      (stat_compat fallbackBuild refKernel sampleProc "/t" sevens).2.2 :=
  (C7_descriptor_and_path_agree fallbackBuild sampleProc sampleProc 3 "/t" 1
    { st := fileStat, sx := fileStatx, flags := 0x10, link := none, owned := true }
    sevens sevens rfl rfl rfl (by decide) rfl).1

/-- The same on the sample file system in the build with `statx`. -/
theorem modern_descriptor_and_path_agree :
    (fstat_compat modernBuild refKernel sampleProc 3 sevens).2 = (0, fileStatx) ∧
    (stat_compat modernBuild refKernel sampleProc "/t" sevens).2 = (0, fileStatx) := by
  refine ⟨by decide, by decide⟩

theorem setInode_self (l : List (Nat × Inode)) (i : Nat) (nd : Inode)
    (h : l.lookup i = some nd) : setInode l i nd = l := by
  induction l with
  | nil => rfl
  | cons hd tl ih =>
    obtain ⟨j, x⟩ := hd
    by_cases hji : j = i
    · subst hji
      simp [List.lookup] at h
      simp [setInode, h]
    · have hij : (i == j) = false := by
        simp only [beq_eq_false_iff_ne, ne_eq]
        exact fun e => hji e.symm
      simp only [List.lookup, hij] at h
      simp [setInode, hji, ih h]

theorem ioctl_get_ok (os : OS) (fd : Int) (u : Nat)
    (h : (OS.ioctl os fd FS_IOC_GETFLAGS u).2.ret = 0) :
    ∃ i nd, os.fdget fd = .ok i ∧ os.inodes.lookup i = some nd ∧
      OS.ioctl os fd FS_IOC_GETFLAGS u = (os, { ret := 0, err := none, buf := nd.flags }) := by
  unfold OS.ioctl at h ⊢
  cases hf : os.fdget fd with
  | error e => simp [hf, failWith] at h
  | ok i =>
    cases hl : os.inodes.lookup i with
    | none => simp [hf, hl, failWith] at h
    | some nd => exact ⟨i, nd, rfl, hl, by simp [hl]⟩

theorem ioctl_set_ok (os : OS) (fd : Int) (v i : Nat) (nd : Inode)
    (hf : os.fdget fd = .ok i) (hl : os.inodes.lookup i = some nd)
    (h : (OS.ioctl os fd FS_IOC_SETFLAGS v).2.ret = 0) :
    OS.ioctl os fd FS_IOC_SETFLAGS v =
      ({ os with inodes := setInode os.inodes i { nd with flags := v } },
       { ret := 0, err := none, buf := v }) := by
  have hne : ¬ (FS_IOC_SETFLAGS = FS_IOC_GETFLAGS) := by decide
  unfold OS.ioctl at h ⊢
  cases ho : nd.owned with
  | false => simp [hf, hl, hne, ho, failWith] at h
  | true => simp [hf, hl, hne, ho]

/-- C9: in a build where both flag requests are defined.  For every kernel,
`fsetFileFlags` issues the one request `ioctl(fd, FS_IOC_SETFLAGS, &flags)` with exactly
the caller's flags value and returns its result, and `fgetFileFlags` issues the one
request `ioctl(fd, FS_IOC_GETFLAGS, flags)` and returns exactly the result and the word
the request stored.  On the reference model, where the get request reads and the set
request writes the inode's flag word: if `fgetFileFlags fd` succeeds with value `v` (so
`fd` is open on an inode whose flag word is `v`) and `fsetFileFlags fd v` then succeeds,
the file system state, and with it every inode's flag word, is unchanged and a
subsequent `fgetFileFlags fd` succeeds with `v` again. -/
theorem C9_get_then_set_is_noop (b : Build) (p : Proc OS) (fd : Int) (u : Nat)
    (hg : b.has_FS_IOC_GETFLAGS = true) (hs : b.has_FS_IOC_SETFLAGS = true) :
    (∀ (κ : Type) (k : Kernel κ) (p1 : Proc κ) (v : Nat),
      (fsetFileFlags b k p1 fd v).1.calls = p1.calls ++ [.ioctl fd FS_IOC_SETFLAGS v] ∧
      (fsetFileFlags b k p1 fd v).2 = (k.ioctl p1.kern fd FS_IOC_SETFLAGS v).2.ret ∧
      (fgetFileFlags b k p1 fd v).1.calls = p1.calls ++ [.ioctl fd FS_IOC_GETFLAGS v] ∧
      (fgetFileFlags b k p1 fd v).2 =
        ((k.ioctl p1.kern fd FS_IOC_GETFLAGS v).2.ret,
         (k.ioctl p1.kern fd FS_IOC_GETFLAGS v).2.buf)) ∧
    ((fgetFileFlags b refKernel p fd u).2.1 = 0 →
      (fsetFileFlags b refKernel (fgetFileFlags b refKernel p fd u).1 fd
        (fgetFileFlags b refKernel p fd u).2.2).2 = 0 →
      (∃ i nd, p.kern.fdget fd = .ok i ∧ p.kern.inodes.lookup i = some nd ∧
        (fgetFileFlags b refKernel p fd u).2.2 = nd.flags) ∧
      (fsetFileFlags b refKernel (fgetFileFlags b refKernel p fd u).1 fd
        (fgetFileFlags b refKernel p fd u).2.2).1.kern = p.kern ∧
      (∀ j, (fsetFileFlags b refKernel (fgetFileFlags b refKernel p fd u).1 fd
        (fgetFileFlags b refKernel p fd u).2.2).1.kern.flagsOf j = p.kern.flagsOf j) ∧
      ∀ w, (fgetFileFlags b refKernel
          (fsetFileFlags b refKernel (fgetFileFlags b refKernel p fd u).1 fd
            (fgetFileFlags b refKernel p fd u).2.2).1 fd w).2
        = (0, (fgetFileFlags b refKernel p fd u).2.2)) := by
  have eg : ∀ (κ : Type) (k : Kernel κ) (p1 : Proc κ) (v : Nat),
      fgetFileFlags b k p1 fd v = sys_ioctl k p1 fd FS_IOC_GETFLAGS v := by
    intro κ k p1 v
    simp [fgetFileFlags, hg]
  have es : ∀ (κ : Type) (k : Kernel κ) (p1 : Proc κ) (v : Nat),
      fsetFileFlags b k p1 fd v =
        ((sys_ioctl k p1 fd FS_IOC_SETFLAGS v).1, (sys_ioctl k p1 fd FS_IOC_SETFLAGS v).2.1) := by
    intro κ k p1 v
    simp [fsetFileFlags, hs]
  constructor
  · intro κ k p1 v
    rw [eg, es]
    exact ⟨rfl, rfl, rfl, rfl⟩
  · rw [eg OS refKernel p u]
    intro h1
    obtain ⟨i, nd, hf, hl, hget⟩ := ioctl_get_ok p.kern fd u h1
    have hget0 : refKernel.ioctl p.kern fd FS_IOC_GETFLAGS u
        = (p.kern, { ret := 0, err := none, buf := nd.flags }) := hget
    have hget1 : sys_ioctl refKernel p fd FS_IOC_GETFLAGS u =
        (p.after (.ioctl fd FS_IOC_GETFLAGS u) p.kern { ret := 0, err := none, buf := nd.flags },
          0, nd.flags) := by
      simp only [sys_ioctl, hget0]
    rw [hget1, es OS refKernel _ nd.flags]
    intro h2
    have hset := ioctl_set_ok p.kern fd nd.flags i nd hf hl h2
    have hnd : ({ nd with flags := nd.flags } : Inode) = nd := rfl
    rw [hnd, setInode_self p.kern.inodes i nd hl] at hset
    have hset1 : refKernel.ioctl p.kern fd FS_IOC_SETFLAGS nd.flags =
        (p.kern, { ret := 0, err := none, buf := nd.flags }) := hset
    have hk : (sys_ioctl refKernel
        (p.after (.ioctl fd FS_IOC_GETFLAGS u) p.kern
          { ret := 0, err := none, buf := nd.flags }) fd FS_IOC_SETFLAGS nd.flags).1.kern
        = p.kern := by
      simp only [sys_ioctl, Proc.after, hset1]
    refine ⟨⟨i, nd, hf, hl, rfl⟩, hk, ?_, ?_⟩
    · intro j
      show OS.flagsOf (sys_ioctl refKernel _ fd FS_IOC_SETFLAGS nd.flags).1.kern j = _
      rw [hk]
    · intro w
      rw [eg OS refKernel _ w]
      have hw : refKernel.ioctl p.kern fd FS_IOC_GETFLAGS w
          = (p.kern, { ret := 0, err := none, buf := nd.flags }) := by
        show OS.ioctl p.kern fd FS_IOC_GETFLAGS w = _
        simp [OS.ioctl, hf, hl]
      show ((refKernel.ioctl (sys_ioctl refKernel _ fd FS_IOC_SETFLAGS nd.flags).1.kern fd
        FS_IOC_GETFLAGS w).2.ret, (refKernel.ioctl (sys_ioctl refKernel _ fd FS_IOC_SETFLAGS
        nd.flags).1.kern fd FS_IOC_GETFLAGS w).2.buf) = _
      rw [hk, hw]

/-- Witness for C9 on the sample file system: descriptor 3 is open on `/t`, whose flag
word is `0x10`. -/
theorem C9_get_then_set_is_noop_witness :
    (fsetFileFlags modernBuild refKernel (fgetFileFlags modernBuild refKernel sampleProc 3 99).1
      3 (fgetFileFlags modernBuild refKernel sampleProc 3 99).2.2).1.kern = sampleProc.kern ∧
    (fgetFileFlags modernBuild refKernel
        (fsetFileFlags modernBuild refKernel
          (fgetFileFlags modernBuild refKernel sampleProc 3 99).1 3
          (fgetFileFlags modernBuild refKernel sampleProc 3 99).2.2).1 3 55).2
      = (0, (fgetFileFlags modernBuild refKernel sampleProc 3 99).2.2) :=
  ⟨((C9_get_then_set_is_noop modernBuild sampleProc 3 99 rfl rfl).2
      (by decide) (by decide)).2.1,
   ((C9_get_then_set_is_noop modernBuild sampleProc 3 99 rfl rfl).2
      (by decide) (by decide)).2.2.2 55⟩

/-- On the sample file system the get request returns the flag word `0x10`, and a set
request with another value changes what the next get request returns. -/
theorem sample_flags_roundtrip :
    (fgetFileFlags modernBuild refKernel sampleProc 3 99).2 = (0, 0x10) ∧
    (fsetFileFlags modernBuild refKernel sampleProc 3 0x20).2 = 0 ∧
    (fgetFileFlags modernBuild refKernel
      (fsetFileFlags modernBuild refKernel sampleProc 3 0x20).1 3 99).2 = (0, 0x20) ∧
    (fgetFileFlags modernBuild refKernel sampleProc 5 99).2 = (-1, 99) ∧
    (fgetFileFlags modernBuild refKernel sampleProc 5 99).1.errno = EBADF := by
  refine ⟨by decide, by decide, by decide, by decide, by decide⟩

end FSIOC
